import Mathlib

/-!
Verification of the ixy.java memory component declaration header
(`memory/src/ixy/c/ixy.h`) against its specification.

The header declares three JNI native entry points for the class
`de.tum.in.net.ixy.memory.MemoryUtils`:

  JNIEXPORT jint  JNICALL Java_de_tum_in_net_ixy_memory_MemoryUtils_c_1pagesize(JNIEnv *, jclass);
  JNIEXPORT jint  JNICALL Java_de_tum_in_net_ixy_memory_MemoryUtils_c_1addrsize(JNIEnv *, jclass);
  JNIEXPORT jlong JNICALL Java_de_tum_in_net_ixy_memory_MemoryUtils_c_1hugepage(JNIEnv *, jclass);

all inside a C-linkage block, so that the JVM can resolve them by their
exact mangled names.  The header is a pure declaration surface: the bodies of
the three queries are not part of the given sources, so the behavioural
properties of the queries are modelled from the specification.
-/

namespace Ixy

/-- JNI types occurring in the header (widths and signedness as fixed by the
JNI specification via `jni.h`): `jint` is a signed 32-bit integer, `jlong` a
signed 64-bit integer; `JNIEnv *` and `jclass` are opaque runtime-context
handles, not semantic data. -/
inductive JTy where
  | jint
  | jlong
  | jnienvPtr
  | jclass
  deriving DecidableEq, Repr

/-- A JNI type is a scalar result type when it is one of the integer types
(as opposed to an opaque runtime handle). -/
def JTy.isScalar : JTy → Bool
  | .jint => true
  | .jlong => true
  | .jnienvPtr => false
  | .jclass => false

/-- Bit width of the scalar JNI types (handles carry no scalar width, they
are mapped to 0). -/
def JTy.bits : JTy → Nat
  | .jint => 32
  | .jlong => 64
  | .jnienvPtr => 0
  | .jclass => 0

/-- Signedness of the JNI types: both scalar types of the header are signed
twos-complement integers per the JNI specification. -/
def JTy.signed : JTy → Bool
  | .jint => true
  | .jlong => true
  | .jnienvPtr => false
  | .jclass => false

/-- Smallest value representable in a signed JNI scalar type. -/
def JTy.minVal (t : JTy) : Int := -(2 ^ (t.bits - 1))

/-- Largest value representable in a signed JNI scalar type. -/
def JTy.maxVal (t : JTy) : Int := 2 ^ (t.bits - 1) - 1

/-- A value is representable in a JNI scalar type when it lies between the
minimal and maximal value of the type. -/
def JTy.representable (t : JTy) (v : Int) : Bool :=
  decide (t.minVal ≤ v) && decide (v ≤ t.maxVal)

/-- One native function declaration of the header: its exported symbol name,
its return type, its parameter list, and whether it has C linkage (no C++
name mangling). -/
structure NativeDecl where
  symbol : String
  ret : JTy
  params : List JTy
  cLinkage : Bool
  deriving DecidableEq, Repr

/-- Declaration of the page-size query, transcribed from lines 9-10 of
`ixy.h`.  It is declared inside the C-linkage block of the header. -/
def c_pagesize_decl : NativeDecl :=
  { symbol := "Java_de_tum_in_net_ixy_memory_MemoryUtils_c_1pagesize"
    ret := JTy.jint
    params := [JTy.jnienvPtr, JTy.jclass]
    cLinkage := true }

/-- Declaration of the address-size query, transcribed from lines 12-13 of
`ixy.h`.  It is declared inside the C-linkage block of the header. -/
def c_addrsize_decl : NativeDecl :=
  { symbol := "Java_de_tum_in_net_ixy_memory_MemoryUtils_c_1addrsize"
    ret := JTy.jint
    params := [JTy.jnienvPtr, JTy.jclass]
    cLinkage := true }

/-- Declaration of the huge-page-size query, transcribed from lines 15-16 of
`ixy.h`.  It is declared inside the C-linkage block of the header. -/
def c_hugepage_decl : NativeDecl :=
  { symbol := "Java_de_tum_in_net_ixy_memory_MemoryUtils_c_1hugepage"
    ret := JTy.jlong
    params := [JTy.jnienvPtr, JTy.jclass]
    cLinkage := true }

/-- The full list of native declarations exposed by `ixy.h`, in source
order.  The header contains no other declarations. -/
def ixyHeaderDecls : List NativeDecl :=
  [c_pagesize_decl, c_addrsize_decl, c_hugepage_decl]

/-- JNI short-name mangling of a single character: a dot (package
separator) becomes an underscore, an underscore is escaped as the two
characters `_1`, and every other character is kept as is. -/
def jniMangleChar (c : Char) : String :=
  if c = '.' then "_"
  else if c = '_' then "_1"
  else String.singleton c

/-- JNI short-name mangling of a fully qualified class name or a method
name. -/
def jniMangle (s : String) : String :=
  String.join (s.toList.map jniMangleChar)

/-- The JNI short symbol name for a native method: the literal `Java_`,
then the mangled fully qualified class name, then an underscore, then the
mangled method name. -/
def jniSymbol (fqClass method : String) : String :=
  "Java_" ++ jniMangle fqClass ++ "_" ++ jniMangle method

/-- The fully qualified name of the Java class whose native methods the
header declares. -/
def memoryUtilsClass : String := "de.tum.in.net.ixy.memory.MemoryUtils"

/-- Modelled from the spec: the bodies of the three queries are not part of
the given sources (only the header declares them), so the host memory
configuration they report is modelled from the data model of the
specification.  `pageSize` is the allocation granularity the OS kernel
reports, a positive power of two, constant for the process lifetime.
`is64bit` records the addressing mode of the build target.
`hugePagesSupported` records whether the host exposes huge pages, and when
it does, `hugePageSize` is the configured huge-page size in bytes, strictly
larger than the ordinary page size. -/
structure HostConfig where
  pageSize : Int
  is64bit : Bool
  hugePagesSupported : Bool
  hugePageSize : Int
  pageSize_pos : 0 < pageSize
  pageSize_pow2 : ∃ k : Nat, pageSize = 2 ^ k
  hugePageSize_gt : hugePagesSupported = true → pageSize < hugePageSize

/-- Number of bytes in the native pointer representation of the build
target: 8 on a 64-bit build, 4 on a 32-bit build. -/
def pointerBytes (is64 : Bool) : Int := if is64 then 8 else 4

/-- Modelled from the spec: the body of
`Java_de_tum_in_net_ixy_memory_MemoryUtils_c_1pagesize` is missing from the
sources; per the spec it reports the page size of the OS kernel,
unconditionally. -/
def c_pagesize (h : HostConfig) : Int := h.pageSize

/-- Modelled from the spec: the body of
`Java_de_tum_in_net_ixy_memory_MemoryUtils_c_1addrsize` is missing from the
sources; per the spec it reports the pointer width of the build target in
bytes. -/
def c_addrsize (h : HostConfig) : Int := pointerBytes h.is64bit

/-- Modelled from the spec: the distinguished sentinel the huge-page query
returns when the host does not expose huge pages.  The spec requires the
sentinel to be distinguishable from every valid size and from a literal
0-byte page size, so a negative value of the signed `jlong` result type is
used. -/
def HUGE_PAGE_UNSUPPORTED : Int := -1

/-- Modelled from the spec: the body of
`Java_de_tum_in_net_ixy_memory_MemoryUtils_c_1hugepage` is missing from the
sources; per the spec it reports the configured huge-page size in bytes
when the host supports huge pages, and the distinguished unsupported
sentinel otherwise, never crashing (the function is total). -/
def c_hugepage (h : HostConfig) : Int :=
  if h.hugePagesSupported then h.hugePageSize else HUGE_PAGE_UNSUPPORTED

/-- The three queries of the component, as callable operations. -/
inductive Query where
  | pagesize
  | addrsize
  | hugepage
  deriving DecidableEq, Repr

/-- Dispatch a query against the host configuration.  The queries are pure:
they take no state besides the immutable host configuration and return one
scalar. -/
def runQuery (q : Query) (h : HostConfig) : Int :=
  match q with
  | .pagesize => c_pagesize h
  | .addrsize => c_addrsize h
  | .hugepage => c_hugepage h

/-- A sequence of `n` repeated calls of the same query within one process
run (the host configuration does not change between the calls, modelling
the absence of OS reconfiguration). -/
def callSequence (q : Query) (h : HostConfig) (n : Nat) : List Int :=
  (List.range n).map fun _ => runQuery q h

/-- A concrete host configuration used as a witness: a standard 64-bit
host with 4096-byte pages and 2 MiB huge pages. -/
def demoHost : HostConfig :=
  { pageSize := 4096
    is64bit := true
    hugePagesSupported := true
    hugePageSize := 2097152
    pageSize_pos := by norm_num
    pageSize_pow2 := ⟨12, by norm_num⟩
    hugePageSize_gt := fun _ => by norm_num }

/-- A concrete host configuration used as a witness: a 64-bit host with
4096-byte pages and no huge-page support. -/
def noHugeHost : HostConfig :=
  { pageSize := 4096
    is64bit := true
    hugePagesSupported := false
    hugePageSize := 2097152
    pageSize_pos := by norm_num
    pageSize_pow2 := ⟨12, by norm_num⟩
    hugePageSize_gt := fun _ => by norm_num }

/-- C1: the header exposes exactly three externally callable entry points,
each taking only the runtime-context handles of the JNI calling convention
(a `JNIEnv` pointer and a `jclass`) and no semantic arguments, and each
returning exactly one scalar value. -/
theorem c1_header_exposes_three_queries :
    ixyHeaderDecls.length = 3 ∧
    (ixyHeaderDecls.map NativeDecl.params).all
      (fun p => decide (p = [JTy.jnienvPtr, JTy.jclass])) = true ∧
    (ixyHeaderDecls.map NativeDecl.ret).all JTy.isScalar = true := by
  decide

/-- C2: the page-size and address-size queries are declared with a 32-bit
integer return type (`jint`) while the huge-page-size query is declared
with a 64-bit integer return type (`jlong`). -/
theorem c2_return_width_asymmetry :
    c_pagesize_decl.ret = JTy.jint ∧ c_pagesize_decl.ret.bits = 32 ∧
    c_addrsize_decl.ret = JTy.jint ∧ c_addrsize_decl.ret.bits = 32 ∧
    c_hugepage_decl.ret = JTy.jlong ∧ c_hugepage_decl.ret.bits = 64 := by
  decide

/-- C3: every call to the page-size query returns a positive power of two,
equal to the allocation granularity reported by the OS kernel (modelled by
the `pageSize` field of the host configuration). -/
theorem c3_pagesize_positive_pow2 (h : HostConfig) :
    0 < c_pagesize h ∧ (∃ k : Nat, c_pagesize h = 2 ^ k) ∧
    c_pagesize h = h.pageSize :=
  ⟨h.pageSize_pos, h.pageSize_pow2, rfl⟩

/-- Witness for C3 at a concrete 64-bit host with 4096-byte pages. -/
theorem c3_pagesize_witness :
    0 < c_pagesize demoHost ∧ (∃ k : Nat, c_pagesize demoHost = 2 ^ k) ∧
    c_pagesize demoHost = demoHost.pageSize :=
  c3_pagesize_positive_pow2 demoHost

/-- C4: every call to the address-size query returns the number of bytes in
the native pointer representation of the build target, 8 on a 64-bit build
and 4 on a 32-bit build, and never returns zero. -/
theorem c4_addrsize_pointer_width (h : HostConfig) :
    c_addrsize h = pointerBytes h.is64bit ∧
    (h.is64bit = true → c_addrsize h = 8) ∧
    (h.is64bit = false → c_addrsize h = 4) ∧
    c_addrsize h ≠ 0 := by
  unfold c_addrsize pointerBytes
  cases hb : h.is64bit <;> simp [hb]

/-- Witness for C4 at a concrete 64-bit host. -/
theorem c4_addrsize_witness :
    demoHost.is64bit = true ∧ c_addrsize demoHost = 8 ∧
    c_addrsize demoHost ≠ 0 :=
  ⟨rfl, (c4_addrsize_pointer_width demoHost).2.1 rfl,
    (c4_addrsize_pointer_width demoHost).2.2.2⟩

/-- C5: when the host does not support huge pages, the huge-page-size query
returns the distinguished unsupported sentinel, which is distinct from zero
and negative (hence distinct from every valid positive size), and the query
does not crash (it is a total function); on every host that does support
huge pages the query returns a strictly positive value, so the sentinel is
never conflated with a valid size. -/
theorem c5_hugepage_unsupported_sentinel (h : HostConfig)
    (hu : h.hugePagesSupported = false) :
    c_hugepage h = HUGE_PAGE_UNSUPPORTED ∧
    HUGE_PAGE_UNSUPPORTED ≠ 0 ∧
    HUGE_PAGE_UNSUPPORTED < 0 ∧
    ∀ g : HostConfig, g.hugePagesSupported = true → 0 < c_hugepage g := by
  refine ⟨by simp [c_hugepage, hu], by decide, by decide, ?_⟩
  intro g hg
  have h1 := g.pageSize_pos
  have h2 := g.hugePageSize_gt hg
  simp only [c_hugepage, hg, if_true]
  linarith

/-- Witness for C5 at a concrete host without huge-page support. -/
theorem c5_hugepage_witness :
    noHugeHost.hugePagesSupported = false ∧
    c_hugepage noHugeHost = HUGE_PAGE_UNSUPPORTED ∧
    HUGE_PAGE_UNSUPPORTED ≠ 0 :=
  ⟨rfl, (c5_hugepage_unsupported_sentinel noHugeHost rfl).1,
    (c5_hugepage_unsupported_sentinel noHugeHost rfl).2.1⟩

/-- C6: on a host that supports huge pages, the huge-page-size query
returns a value strictly greater than the page-size query. -/
theorem c6_hugepage_gt_pagesize (h : HostConfig)
    (hs : h.hugePagesSupported = true) :
    c_pagesize h < c_hugepage h := by
  simp only [c_pagesize, c_hugepage, hs, if_true]
  exact h.hugePageSize_gt hs

/-- Witness for C6 at a concrete host with 2 MiB huge pages. -/
theorem c6_hugepage_witness :
    demoHost.hugePagesSupported = true ∧
    c_pagesize demoHost < c_hugepage demoHost :=
  ⟨rfl, c6_hugepage_gt_pagesize demoHost rfl⟩

/-- C7: each query is stateless and idempotent: a sequence of repeated
calls of the same query within one process run, with no OS reconfiguration
in between, returns the same value at every call. -/
theorem c7_queries_idempotent (q : Query) (h : HostConfig) (n : Nat) :
    callSequence q h n = List.replicate n (runQuery q h) := by
  induction n with
  | zero => rfl
  | succ m ih =>
      rw [callSequence, List.range_succ, List.map_append]
      rw [callSequence] at ih
      rw [ih, List.replicate_succ']
      rfl

/-- Witness for C7: three repeated page-size calls at a concrete host. -/
theorem c7_idempotent_witness :
    callSequence Query.pagesize demoHost 3 =
      List.replicate 3 (runQuery Query.pagesize demoHost) :=
  c7_queries_idempotent Query.pagesize demoHost 3

/-- C8: all three entry points are declared with C-compatible linkage (no
name mangling), and each exported symbol is exactly the name the fixed JNI
naming scheme derives from the package, class and method path, so a dynamic
symbol resolver can bind each one by its pre-agreed name. -/
theorem c8_c_linkage_and_naming_scheme :
    (ixyHeaderDecls.map NativeDecl.cLinkage).all id = true ∧
    c_pagesize_decl.symbol = jniSymbol memoryUtilsClass "c_pagesize" ∧
    c_addrsize_decl.symbol = jniSymbol memoryUtilsClass "c_addrsize" ∧
    c_hugepage_decl.symbol = jniSymbol memoryUtilsClass "c_hugepage" := by
  decide

/-- C9: the exact exported symbol names are
`Java_de_tum_in_net_ixy_memory_MemoryUtils_c_1pagesize`,
`Java_de_tum_in_net_ixy_memory_MemoryUtils_c_1addrsize` and
`Java_de_tum_in_net_ixy_memory_MemoryUtils_c_1hugepage`, which are the JNI
encodings of the methods `c_pagesize`, `c_addrsize` and `c_hugepage` of the
class `de.tum.in.net.ixy.memory.MemoryUtils`, with the underscore of each
method name escaped as `_1`. -/
theorem c9_exact_symbol_names :
    c_pagesize_decl.symbol =
      "Java_de_tum_in_net_ixy_memory_MemoryUtils_c_1pagesize" ∧
    c_addrsize_decl.symbol =
      "Java_de_tum_in_net_ixy_memory_MemoryUtils_c_1addrsize" ∧
    c_hugepage_decl.symbol =
      "Java_de_tum_in_net_ixy_memory_MemoryUtils_c_1hugepage" ∧
    jniSymbol memoryUtilsClass "c_pagesize" = c_pagesize_decl.symbol ∧
    jniSymbol memoryUtilsClass "c_addrsize" = c_addrsize_decl.symbol ∧
    jniSymbol memoryUtilsClass "c_hugepage" = c_hugepage_decl.symbol ∧
    jniMangle "c_pagesize" = "c_1pagesize" ∧
    jniMangleChar '_' = "_1" := by
  decide

/-- C10: the declared return types of all three queries are signed integer
types (`jint` signed 32-bit, `jlong` signed 64-bit), so a negative sentinel
such as -1 is representable in each return type and is distinct from 0 and
from every valid positive size. -/
theorem c10_signed_return_types (v : Int) (hv : 0 < v) :
    (ixyHeaderDecls.map (fun d => d.ret.signed)).all id = true ∧
    JTy.jint.bits = 32 ∧ JTy.jlong.bits = 64 ∧
    c_pagesize_decl.ret.representable (-1) = true ∧
    c_addrsize_decl.ret.representable (-1) = true ∧
    c_hugepage_decl.ret.representable (-1) = true ∧
    (-1 : Int) ≠ 0 ∧ (-1 : Int) ≠ v := by
  refine ⟨by decide, by decide, by decide, by decide, by decide, by decide,
    by decide, ?_⟩
  omega

/-- Witness for C10 at the concrete valid size 4096. -/
theorem c10_signed_witness : 0 < (4096 : Int) ∧ (-1 : Int) ≠ 4096 :=
  ⟨by decide, (c10_signed_return_types 4096 (by decide)).2.2.2.2.2.2.2⟩

end Ixy
